import Mathlib

/-!
Verification of the smarttub Python client (src/smarttub/__init__.py)
against its natural-language specification.

The client is embedded shallowly: Python objects become Lean structures,
the mutable session state and each sub-resource object are threaded
explicitly through every operation, the HTTP transport is an explicit
environment function from requests to responses, and each operation
returns its final object state, an `Except` result (embedding Python
exceptions) and the list of HTTP requests it issued, in order.
-/

/-- A JSON value, as produced by `response.json()`.  Numbers are modelled
as integers (no claim exercises fractional values). -/
inductive Json where
  | null
  | bool (b : Bool)
  | num (n : Int)
  | str (s : String)
  | arr (elems : List Json)
  | obj (fields : List (String × Json))

/-- `j[k]` lookup for dict-shaped JSON: returns the first binding of `k`.
Python raises `TypeError` when subscripting a non-dict with a string key;
callers of `get` on a non-dict receive `none` and map it to the error the
source would raise at that site. -/
def Json.get (j : Json) (k : String) : Option Json :=
  match j with
  | .obj fields => fields.lookup k
  | _ => none

mutual

/-- Python `repr` of a JSON value (used by `str` on dicts/lists, which is
what an f-string applies to a dict interpolated into a URL path). -/
def Json.pyRepr : Json → String
  | .null => "None"
  | .bool b => if b then "True" else "False"
  | .num n => toString n
  | .str s => "\x27" ++ s ++ "\x27"
  | .arr xs => "[" ++ Json.pyReprList xs ++ "]"
  | .obj fs => "\x7b" ++ Json.pyReprFields fs ++ "\x7d"

/-- `repr` of the elements of a Python list, comma separated. -/
def Json.pyReprList : List Json → String
  | [] => ""
  | [x] => Json.pyRepr x
  | x :: y :: xs => Json.pyRepr x ++ ", " ++ Json.pyReprList (y :: xs)

/-- `repr` of the entries of a Python dict, comma separated. -/
def Json.pyReprFields : List (String × Json) → String
  | [] => ""
  | [(k, v)] => "\x27" ++ k ++ "\x27: " ++ Json.pyRepr v
  | (k, v) :: f :: fs =>
      "\x27" ++ k ++ "\x27: " ++ Json.pyRepr v ++ ", " ++ Json.pyReprFields (f :: fs)

end

/-- Python `str` of a JSON value, as applied by f-string interpolation:
a string interpolates as itself, every other value via its `repr`. -/
def Json.pyStr : Json → String
  | .str s => s
  | j => j.pyRepr

/-- The exceptions the client can raise, one constructor per raise site,
named after the taxonomy of the specification:
* `notAuthenticatedError` embeds the `RuntimeError("not logged in")`
  raised by `SmartTub._require_login` (spec name: NotAuthenticatedError);
* `authenticationError` embeds the `requests.HTTPError` raised by
  `raise_for_status` inside `login` (spec name: AuthenticationError);
* `apiError` embeds the `requests.HTTPError` raised by `raise_for_status`
  inside `SmartTub.request`/`get_account` (spec name: ApiError), carrying
  the HTTP status and the response body;
* `invalidArgumentError` embeds the `AssertionError` raised by a failed
  client-side `assert` (spec name: InvalidArgumentError);
* `attributeError k` embeds the Python `AttributeError` raised when an
  object has no attribute `k`;
* `keyError k` embeds the Python `KeyError` raised by `d[k]` on a dict
  missing key `k`;
* `typeError` embeds the Python `TypeError` raised when iterating or
  subscripting a value of the wrong shape. -/
inductive ClientError where
  | notAuthenticatedError
  | authenticationError (status : Nat)
  | apiError (status : Nat) (body : Json)
  | invalidArgumentError
  | attributeError (attr : String)
  | keyError (key : String)
  | typeError

/-- One HTTP request as issued by the client: method, full URL, the
bearer token attached via the Authorization header (absent for the
authentication call itself), and the JSON body (`json=` argument). -/
structure HttpRequest where
  method : String
  url : String
  bearer : Option Json
  body : Option Json

/-- An HTTP response: status code and decoded JSON body.  Bodies that are
not valid JSON are outside the model; every response body decodes. -/
structure HttpResponse where
  status : Nat
  body : Json

/-- The HTTP transport: what the servers answer to each request. -/
def Env : Type := HttpRequest → HttpResponse

/-- The outcome of one client operation: the final state of the objects
it could have mutated, its return value or exception, and the HTTP
requests it issued, in order. -/
structure Outcome (σ : Type) (α : Type) where
  state : σ
  result : Except ClientError α
  trace : List HttpRequest

/-- `requests.Response.raise_for_status` raises `HTTPError` exactly for
status codes 400-599 (client and server errors). -/
def statusError (status : Nat) : Bool :=
  decide (400 ≤ status) && decide (status < 600)

/-- The `SmartTub` session object.  `__init__` sets only `logged_in`;
the remaining attributes do not exist until `login` assigns them, which
is modelled by default values (no claim reads them before login, every
access in the source is guarded by `_require_login`). -/
structure SmartTub where
  logged_in : Bool
  access_token : Json := Json.null
  access_token_data : List (String × String) := []
  expires_at : Int := 0
  refresh_token : Json := Json.null
  account_id : String := ""

/-- `SmartTub()`: the constructor sets `logged_in = False`. -/
def SmartTub.init : SmartTub := { logged_in := false }

def SmartTub.AUTH_AUDIENCE : String := "https://api.operation-link.com/"

def SmartTub.AUTH_URL : String := "https://smarttub.auth0.com/oauth/token"

def SmartTub.AUTH_CLIENT_ID : String := "dB7Rcp3rfKKh0vHw2uqkwOZmRb5WNjQC"

def SmartTub.AUTH_REALM : String := "Username-Password-Authentication"

def SmartTub.AUTH_ACCOUNT_ID_KEY : String := "http://operation-link.com/account_id"

def SmartTub.API_BASE : String := "https://api.smarttub.io"

/-- The `requests.post` call issued by `login`: JSON body with audience,
client id, grant type, realm, scope and the credentials; no bearer. -/
def SmartTub.authRequest (username password : String) : HttpRequest :=
  { method := "POST"
    url := SmartTub.AUTH_URL
    bearer := none
    body := some (Json.obj [
      ("audience", Json.str SmartTub.AUTH_AUDIENCE),
      ("client_id", Json.str SmartTub.AUTH_CLIENT_ID),
      ("grant_type", Json.str "http://auth0.com/oauth/grant-type/password-realm"),
      ("realm", Json.str SmartTub.AUTH_REALM),
      ("scope", Json.str "openid email offline_access User Admin"),
      ("username", Json.str username),
      ("password", Json.str password)]) }

/-- `SmartTub.login`.  `decode` is an oracle for
`jwt.decode(token, verify=False)` (signature never checked), `now` for
`time.time()`.  Field lookups, the partial attribute assignments before
the `token_type` assert, and the claim lookup follow the source order:
lines 54-61 of the source assign `access_token`, `access_token_data`,
`expires_at`, `refresh_token`, then assert `token_type == "Bearer"`,
then assign `account_id` and `logged_in`. -/
def SmartTub.login (env : Env) (decode : Json → List (String × String)) (now : Int)
    (self : SmartTub) (username password : String) : Outcome SmartTub Unit :=
  let req := SmartTub.authRequest username password
  let r := env req
  if statusError r.status then
    ⟨self, .error (.authenticationError r.status), [req]⟩
  else
    match r.body.get "access_token" with
    | none => ⟨self, .error (.keyError "access_token"), [req]⟩
    | some tok =>
      let data := decode tok
      let self := { self with access_token := tok, access_token_data := data }
      match r.body.get "expires_in" with
      | none => ⟨self, .error (.keyError "expires_in"), [req]⟩
      | some (.num e) =>
        let self := { self with expires_at := now + e }
        match r.body.get "refresh_token" with
        | none => ⟨self, .error (.keyError "refresh_token"), [req]⟩
        | some rt =>
          let self := { self with refresh_token := rt }
          match r.body.get "token_type" with
          | none => ⟨self, .error (.keyError "token_type"), [req]⟩
          | some (.str tt) =>
            if tt = "Bearer" then
              match data.lookup SmartTub.AUTH_ACCOUNT_ID_KEY with
              | some aid =>
                ⟨{ self with account_id := aid, logged_in := true }, .ok (), [req]⟩
              | none => ⟨self, .error (.keyError SmartTub.AUTH_ACCOUNT_ID_KEY), [req]⟩
            else ⟨self, .error .invalidArgumentError, [req]⟩
          | some _ => ⟨self, .error .invalidArgumentError, [req]⟩
      | some _ => ⟨self, .error .typeError, [req]⟩

/-- The request `SmartTub.request` issues for a given path: the path is
appended to `API_BASE` and the bearer token attached via `_headers`. -/
def SmartTub.requestOf (self : SmartTub) (method path : String) (body : Option Json) :
    HttpRequest :=
  { method := method
    url := SmartTub.API_BASE ++ "/" ++ path
    bearer := some self.access_token
    body := body }

/-- `SmartTub.request`: `_require_login`, then the HTTP call, then
`raise_for_status`, then the decoded JSON body. -/
def SmartTub.request (env : Env) (self : SmartTub) (method path : String)
    (body : Option Json) : Outcome SmartTub Json :=
  if self.logged_in then
    let req := self.requestOf method path body
    let r := env req
    { state := self
      result := if statusError r.status then .error (.apiError r.status r.body) else .ok r.body
      trace := [req] }
  else ⟨self, .error .notAuthenticatedError, []⟩

/-- The `Account` object: `id` and `email` are extracted from the
response properties, which are kept whole in `properties`.  The
back-reference to the session object is threaded explicitly instead of
being stored. -/
structure Account where
  id : Json
  email : Json
  properties : Json

/-- `Account(api, **properties)`: `properties["id"]` and
`properties["email"]` are looked up (raising `KeyError` when absent). -/
def Account.ofJson (j : Json) : Except ClientError Account :=
  match j.get "id" with
  | none => .error (.keyError "id")
  | some i =>
    match j.get "email" with
    | none => .error (.keyError "email")
    | some e => .ok ⟨i, e, j⟩

/-- `SmartTub.get_account`: `_require_login`, then
`GET {API_BASE}/accounts/{account_id}`, `raise_for_status`, and the
`Account` constructor on the decoded body. -/
def SmartTub.get_account (env : Env) (self : SmartTub) : Outcome SmartTub Account :=
  if self.logged_in then
    let req := self.requestOf "GET" ("accounts/" ++ self.account_id) none
    let r := env req
    { state := self
      result :=
        if statusError r.status then .error (.apiError r.status r.body)
        else Account.ofJson r.body
      trace := [req] }
  else ⟨self, .error .notAuthenticatedError, []⟩

/-- The `Spa` (Device) object.  The source also stores back-references
to the session and account objects; those are threaded explicitly. -/
structure Spa where
  id : Json
  brand : Json
  model : Json
  properties : Json

/-- `Spa(api, account, **properties)`: `properties["id"]`,
`properties["brand"]` and `properties["model"]` are looked up. -/
def Spa.ofJson (j : Json) : Except ClientError Spa :=
  match j.get "id" with
  | none => .error (.keyError "id")
  | some i =>
    match j.get "brand" with
    | none => .error (.keyError "brand")
    | some b =>
      match j.get "model" with
      | none => .error (.keyError "model")
      | some m => .ok ⟨i, b, m, j⟩

/-- `Account.get_spa(spa_id)`: `GET spas/{spa_id}` through the session,
then the `Spa` constructor on the decoded body. -/
def Account.get_spa (env : Env) (api : SmartTub) (self : Account) (spa_id : Json) :
    Outcome (SmartTub × Account) Spa :=
  let o := api.request env "GET" ("spas/" ++ spa_id.pyStr) none
  { state := (o.state, self)
    result :=
      match o.result with
      | .error e => .error e
      | .ok j => Spa.ofJson j
    trace := o.trace }

/-- The loop body of `Account.get_spas`: for each summary record in
`content`, look up its `id` and fetch that spa via `get_spa`, stopping
at the first exception (requests already issued stay issued). -/
def Account.get_spas_loop (env : Env) (api : SmartTub) (self : Account) :
    List Json → Except ClientError (List Spa) × List HttpRequest
  | [] => (.ok [], [])
  | info :: rest =>
    match info.get "id" with
    | none => (.error (.keyError "id"), [])
    | some sid =>
      let o := self.get_spa env api sid
      match o.result with
      | .error e => (.error e, o.trace)
      | .ok spa =>
        match Account.get_spas_loop env api self rest with
        | (.error e, tr) => (.error e, o.trace ++ tr)
        | (.ok spas, tr) => (.ok (spa :: spas), o.trace ++ tr)

/-- `Account.get_spas`: `GET spas?ownerId={id}`, then iterate over the
`content` list of summaries, fetching each spa individually.  Iterating
a non-list `content` is modelled as `TypeError`. -/
def Account.get_spas (env : Env) (api : SmartTub) (self : Account) :
    Outcome (SmartTub × Account) (List Spa) :=
  let o := api.request env "GET" ("spas?ownerId=" ++ self.id.pyStr) none
  match o.result with
  | .error e => ⟨(api, self), .error e, o.trace⟩
  | .ok j =>
    match j.get "content" with
    | none => ⟨(api, self), .error (.keyError "content"), o.trace⟩
    | some (.arr infos) =>
      match Account.get_spas_loop env api self infos with
      | (r, tr) => ⟨(api, self), r, o.trace ++ tr⟩
    | some _ => ⟨(api, self), .error .typeError, o.trace⟩

def Spa.SECONDARY_FILTRATION_MODES : List String := ["FREQUENT", "INFREQUENT", "AWAY"]

def Spa.HEAT_MODES : List String := ["ECONOMY", "DAY", "AUTO"]

def Spa.LIGHT_MODES : List String :=
  ["PURPLE", "ORANGE", "RED", "YELLOW", "GREEN", "AQUA", "BLUE", "HIGH_SPEED_WHEEL", "OFF"]

def Spa.TEMPERATURE_FORMATS : List String := ["FAHRENHEIT", "CELSIUS"]

def Spa.ENERGY_USAGE_INTERVALS : List String := ["DAY", "MONTH"]

/-- The device-scoped path `f"spas/{self.id}/{resource}"`. -/
def Spa.resourcePath (self : Spa) (resource : String) : String :=
  "spas/" ++ self.id.pyStr ++ "/" ++ resource

/-- `Spa.request(method, resource, body)`: delegates to the session with
path `spas/{self.id}/{resource}`. -/
def Spa.request (env : Env) (api : SmartTub) (self : Spa) (method resource : String)
    (body : Option Json) : Outcome (SmartTub × Spa) Json :=
  let o := api.request env method (self.resourcePath resource) body
  ⟨(o.state, self), o.result, o.trace⟩

/-- `Spa.get_status`: `GET status`, returning the decoded body as is. -/
def Spa.get_status (env : Env) (api : SmartTub) (self : Spa) :
    Outcome (SmartTub × Spa) Json :=
  self.request env api "GET" "status" none

/-- The `SpaPump` object. -/
structure SpaPump where
  id : Json
  speed : Json
  state : Json
  type : Json
  properties : Json

/-- `SpaPump(api, spa, **properties)`. -/
def SpaPump.ofJson (j : Json) : Except ClientError SpaPump :=
  match j.get "id" with
  | none => .error (.keyError "id")
  | some i =>
    match j.get "speed" with
    | none => .error (.keyError "speed")
    | some sp =>
      match j.get "state" with
      | none => .error (.keyError "state")
      | some st =>
        match j.get "type" with
        | none => .error (.keyError "type")
        | some ty => .ok ⟨i, sp, st, ty, j⟩

/-- The `SpaLight` object: note it stores `zone`, `color`, `intensity`
and `mode`, but no `id`. -/
structure SpaLight where
  zone : Json
  color : Json
  intensity : Json
  mode : Json
  properties : Json

/-- `SpaLight(api, spa, **properties)`. -/
def SpaLight.ofJson (j : Json) : Except ClientError SpaLight :=
  match j.get "zone" with
  | none => .error (.keyError "zone")
  | some z =>
    match j.get "color" with
    | none => .error (.keyError "color")
    | some c =>
      match j.get "intensity" with
      | none => .error (.keyError "intensity")
      | some i =>
        match j.get "mode" with
        | none => .error (.keyError "mode")
        | some m => .ok ⟨z, c, i, m, j⟩

/-- The `SpaReminder` object. -/
structure SpaReminder where
  id : Json
  last_updated : Int
  name : Json
  remaining_days : Json
  snoozed : Json
  state : Json

/-- `SpaReminder(api, spa, **properties)`: `isoparse` is an oracle for
`dateutil.parser.isoparse` applied to the `lastUpdated` string. -/
def SpaReminder.ofJson (isoparse : String → Int) (j : Json) :
    Except ClientError SpaReminder :=
  match j.get "id" with
  | none => .error (.keyError "id")
  | some i =>
    match j.get "lastUpdated" with
    | none => .error (.keyError "lastUpdated")
    | some (.str lu) =>
      match j.get "name" with
      | none => .error (.keyError "name")
      | some nm =>
        match j.get "remainingDuration" with
        | none => .error (.keyError "remainingDuration")
        | some rd =>
          match j.get "snoozed" with
          | none => .error (.keyError "snoozed")
          | some sn =>
            match j.get "state" with
            | none => .error (.keyError "state")
            | some st => .ok ⟨i, isoparse lu, nm, rd, sn, st⟩
    | some _ => .error .typeError

/-- `Spa.get_pumps`: `GET pumps`, then map each element of the `pumps`
list through the `SpaPump` constructor. -/
def Spa.get_pumps (env : Env) (api : SmartTub) (self : Spa) :
    Outcome (SmartTub × Spa) (List SpaPump) :=
  let o := self.request env api "GET" "pumps" none
  { state := o.state
    result :=
      match o.result with
      | .error e => .error e
      | .ok j =>
        match j.get "pumps" with
        | none => .error (.keyError "pumps")
        | some (.arr infos) => infos.mapM SpaPump.ofJson
        | some _ => .error .typeError
    trace := o.trace }

/-- `Spa.get_lights`: `GET lights`, then map each element of the
`lights` list through the `SpaLight` constructor. -/
def Spa.get_lights (env : Env) (api : SmartTub) (self : Spa) :
    Outcome (SmartTub × Spa) (List SpaLight) :=
  let o := self.request env api "GET" "lights" none
  { state := o.state
    result :=
      match o.result with
      | .error e => .error e
      | .ok j =>
        match j.get "lights" with
        | none => .error (.keyError "lights")
        | some (.arr infos) => infos.mapM SpaLight.ofJson
        | some _ => .error .typeError
    trace := o.trace }

/-- `Spa.get_errors`: `GET errors`, returning the `content` field. -/
def Spa.get_errors (env : Env) (api : SmartTub) (self : Spa) :
    Outcome (SmartTub × Spa) Json :=
  let o := self.request env api "GET" "errors" none
  { state := o.state
    result :=
      match o.result with
      | .error e => .error e
      | .ok j =>
        match j.get "content" with
        | none => .error (.keyError "content")
        | some v => .ok v
    trace := o.trace }

/-- `Spa.get_reminders`: `GET reminders`, then map each element of the
`reminders` list through the `SpaReminder` constructor. -/
def Spa.get_reminders (env : Env) (isoparse : String → Int) (api : SmartTub)
    (self : Spa) : Outcome (SmartTub × Spa) (List SpaReminder) :=
  let o := self.request env api "GET" "reminders" none
  { state := o.state
    result :=
      match o.result with
      | .error e => .error e
      | .ok j =>
        match j.get "reminders" with
        | none => .error (.keyError "reminders")
        | some (.arr infos) => infos.mapM (SpaReminder.ofJson isoparse)
        | some _ => .error .typeError
    trace := o.trace }

/-- `Spa.get_debug_status`: `GET debugStatus`, returning the
`debugStatus` field. -/
def Spa.get_debug_status (env : Env) (api : SmartTub) (self : Spa) :
    Outcome (SmartTub × Spa) Json :=
  let o := self.request env api "GET" "debugStatus" none
  { state := o.state
    result :=
      match o.result with
      | .error e => .error e
      | .ok j =>
        match j.get "debugStatus" with
        | none => .error (.keyError "debugStatus")
        | some v => .ok v
    trace := o.trace }

/-- A `datetime.date`. -/
structure Date where
  year : Nat
  month : Nat
  day : Nat

/-- Zero-padding to two digits, as in ISO-8601 date and time fields. -/
def pad2 (n : Nat) : String :=
  if n < 10 then "0" ++ toString n else toString n

/-- Zero-padding of the year to four digits. -/
def pad4 (n : Nat) : String :=
  if n < 10 then "000" ++ toString n
  else if n < 100 then "00" ++ toString n
  else if n < 1000 then "0" ++ toString n
  else toString n

/-- `datetime.date.isoformat()`: `YYYY-MM-DD`. -/
def Date.isoformat (d : Date) : String :=
  pad4 d.year ++ "-" ++ pad2 d.month ++ "-" ++ pad2 d.day

/-- A `datetime.time`; the seconds field exists on the Python object but
is dropped by `isoformat("minutes")`. -/
structure Time where
  hour : Nat
  minute : Nat
  second : Nat

/-- `datetime.time.isoformat("minutes")`: `HH:MM`, truncated to minute
precision. -/
def Time.isoformatMinutes (t : Time) : String :=
  pad2 t.hour ++ ":" ++ pad2 t.minute

/-- `Spa.get_energy_usage(interval, start_date, end_date)`: asserts the
interval is enumerated, then `POST energyUsage` with ISO-8601 bounds and
returns the `buckets` field of the response. -/
def Spa.get_energy_usage (env : Env) (api : SmartTub) (self : Spa)
    (interval : String) (start_date end_date : Date) :
    Outcome (SmartTub × Spa) Json :=
  if Spa.ENERGY_USAGE_INTERVALS.contains interval then
    let body := Json.obj [
      ("start", Json.str start_date.isoformat),
      ("end", Json.str end_date.isoformat),
      ("interval", Json.str interval)]
    let o := self.request env api "POST" "energyUsage" (some body)
    { state := o.state
      result :=
        match o.result with
        | .error e => .error e
        | .ok j =>
          match j.get "buckets" with
          | none => .error (.keyError "buckets")
          | some v => .ok v
      trace := o.trace }
  else ⟨(api, self), .error .invalidArgumentError, []⟩

/-- Discard the decoded body of a mutator's underlying request: every
mutator of the source returns `None` on success. -/
def ignoreBody (r : Except ClientError Json) : Except ClientError Unit :=
  match r with
  | .error e => .error e
  | .ok _ => .ok ()

/-- `Spa.set_secondary_filtration_mode(mode)`: asserts the mode is
enumerated, then `PATCH config` with a `secondaryFiltrationConfig`
body. -/
def Spa.set_secondary_filtration_mode (env : Env) (api : SmartTub) (self : Spa)
    (mode : String) : Outcome (SmartTub × Spa) Unit :=
  if Spa.SECONDARY_FILTRATION_MODES.contains mode then
    let o := self.request env api "PATCH" "config"
      (some (Json.obj [("secondaryFiltrationConfig", Json.str mode)]))
    ⟨o.state, ignoreBody o.result, o.trace⟩
  else ⟨(api, self), .error .invalidArgumentError, []⟩

/-- `Spa.set_heat_mode(mode)`: asserts the mode is enumerated, then
`PATCH config` with a `heatMode` body. -/
def Spa.set_heat_mode (env : Env) (api : SmartTub) (self : Spa) (mode : String) :
    Outcome (SmartTub × Spa) Unit :=
  if Spa.HEAT_MODES.contains mode then
    let o := self.request env api "PATCH" "config"
      (some (Json.obj [("heatMode", Json.str mode)]))
    ⟨o.state, ignoreBody o.result, o.trace⟩
  else ⟨(api, self), .error .invalidArgumentError, []⟩

/-- `Spa.set_temperature(temp_c)`: no validation; `PATCH config` with a
`setTemperature` body.  The temperature is passed through into the JSON
body unchanged, so it is modelled as a JSON value. -/
def Spa.set_temperature (env : Env) (api : SmartTub) (self : Spa) (temp_c : Json) :
    Outcome (SmartTub × Spa) Unit :=
  let o := self.request env api "PATCH" "config"
    (some (Json.obj [("setTemperature", temp_c)]))
  ⟨o.state, ignoreBody o.result, o.trace⟩

/-- `Spa.toggle_clearray(str)`: the source declares a (never used)
required positional parameter named `str`; `POST clearray/toggle` with
no body. -/
def Spa.toggle_clearray (env : Env) (api : SmartTub) (self : Spa) (s : Json) :
    Outcome (SmartTub × Spa) Unit :=
  let o := self.request env api "POST" "clearray/toggle" none
  ⟨o.state, ignoreBody o.result, o.trace⟩

/-- `Spa.set_temperature_format(temperature_format)`: the first
statement is `assert temperature_format in self.TEMPERATURE_MODES`, but
neither `Spa` nor any base class defines `TEMPERATURE_MODES` (the class
attribute two lines above `LIGHT_MODES` is named `TEMPERATURE_FORMATS`),
so Python raises `AttributeError` before any validation or request.  The
rest of the method (which would send `POST config` with a
`displayTemperatureFormat` body) is unreachable. -/
def Spa.set_temperature_format (env : Env) (api : SmartTub) (self : Spa)
    (temperature_format : String) : Outcome (SmartTub × Spa) Unit :=
  ⟨(api, self), .error (.attributeError "TEMPERATURE_MODES"), []⟩

/-- `Spa.set_date_time(date, time)`: asserts at least one of date and
time is provided, builds the `dateTimeConfig` dict, then calls
`self.request("POST", body)` — the dict is passed positionally as the
`resource` parameter, so the f-string interpolates `str(body)` into the
URL path and the request is sent with `json=None`. -/
def Spa.set_date_time (env : Env) (api : SmartTub) (self : Spa)
    (date : Option Date) (time : Option Time) : Outcome (SmartTub × Spa) Unit :=
  if date.isSome || time.isSome then
    let config : List (String × Json) :=
      (match date with
       | some d => [("date", Json.str d.isoformat)]
       | none => []) ++
      (match time with
       | some t => [("time", Json.str t.isoformatMinutes)]
       | none => [])
    let body := Json.obj [("dateTimeConfig", Json.obj config)]
    let o := self.request env api "POST" body.pyStr none
    ⟨o.state, ignoreBody o.result, o.trace⟩
  else ⟨(api, self), .error .invalidArgumentError, []⟩

/-- `SpaPump.toggle()`: `POST pumps/{self.id}/toggle` through the parent
spa. -/
def SpaPump.toggle (env : Env) (api : SmartTub) (spa : Spa) (self : SpaPump) :
    Outcome (SmartTub × Spa × SpaPump) Unit :=
  let o := spa.request env api "POST" ("pumps/" ++ self.id.pyStr ++ "/toggle") none
  ⟨(o.state.1, o.state.2, self), ignoreBody o.result, o.trace⟩

/-- `SpaLight.set(intensity, mode)`: the first statement is
`assert mode in self.LIGHT_MODES`, but `SpaLight` defines no
`LIGHT_MODES` attribute and does not inherit from `Spa` (which does), so
Python raises `AttributeError` before any validation or request.  The
rest of the method (the intensity/OFF assert and the
`PATCH lights/{zone}` request) is unreachable. -/
def SpaLight.set (env : Env) (api : SmartTub) (spa : Spa) (self : SpaLight)
    (intensity : Int) (mode : String) : Outcome (SmartTub × Spa × SpaLight) Unit :=
  ⟨(api, spa, self), .error (.attributeError "LIGHT_MODES"), []⟩

/-- The path template of the request `SpaLight.toggle` tries to build:
`f"pumps/{self.id}/toggle"` for a given value of `self.id`. -/
def SpaLight.toggle_path (i : String) : String :=
  "pumps/" ++ i ++ "/toggle"

/-- `SpaLight.toggle()`: evaluating `f"pumps/{self.id}/toggle"` looks up
`self.id`, but `SpaLight.__init__` assigns only `zone`, `color`,
`intensity`, `mode` (and `spa`, `_api`, `properties`), so Python raises
`AttributeError` before any request is issued. -/
def SpaLight.toggle (env : Env) (api : SmartTub) (spa : Spa) (self : SpaLight) :
    Outcome (SmartTub × Spa × SpaLight) Unit :=
  ⟨(api, spa, self), .error (.attributeError "id"), []⟩

/-! ### Concrete fixtures used by witnesses and counterexamples -/

/-- A transport whose every response is `200` with a null body. -/
def env200 : Env := fun _ => ⟨200, Json.null⟩

/-- A transport whose every response is `500` with a null body. -/
def env500 : Env := fun _ => ⟨500, Json.null⟩

/-- A transport whose every response is `300` with a null body. -/
def env300 : Env := fun _ => ⟨300, Json.null⟩

/-- A freshly constructed, not yet logged-in session. -/
def api0 : SmartTub := SmartTub.init

/-- A logged-in session. -/
def api1 : SmartTub :=
  { logged_in := true
    access_token := Json.str "tok"
    access_token_data := [(SmartTub.AUTH_ACCOUNT_ID_KEY, "acct1")]
    expires_at := 3600
    refresh_token := Json.str "refresh"
    account_id := "acct1" }

/-- A concrete account. -/
def acct0 : Account :=
  ⟨Json.str "acct1", Json.str "user@example.com",
   Json.obj [("id", Json.str "acct1"), ("email", Json.str "user@example.com")]⟩

/-- A concrete spa with id `s1`. -/
def spa1 : Spa :=
  ⟨Json.str "s1", Json.str "b", Json.str "m",
   Json.obj [("id", Json.str "s1"), ("brand", Json.str "b"), ("model", Json.str "m")]⟩

/-- A concrete pump. -/
def pump0 : SpaPump :=
  ⟨Json.str "p1", Json.str "LOW", Json.str "OFF", Json.str "JET", Json.null⟩

/-- A concrete light in zone 1. -/
def light0 : SpaLight :=
  ⟨Json.num 1, Json.null, Json.num 0, Json.str "OFF", Json.null⟩

/-! ### Helper lemmas -/

/-- `SmartTub.request` never changes the session state. -/
theorem SmartTub.request_state_self (env : Env) (self : SmartTub) (method path : String)
    (body : Option Json) : (SmartTub.request env self method path body).state = self := by
  unfold SmartTub.request
  split <;> rfl

/-- `Spa.request` never changes the session or spa state. -/
theorem Spa.request_state_pair (env : Env) (api : SmartTub) (self : Spa)
    (method resource : String) (body : Option Json) :
    (Spa.request env api self method resource body).state = (api, self) := by
  unfold Spa.request
  simp [SmartTub.request_state_self]

/-- Before login, `SmartTub.request` raises at `_require_login` and
issues nothing. -/
theorem SmartTub.request_not_logged_in (env : Env) (self : SmartTub)
    (method path : String) (body : Option Json) (h : self.logged_in = false) :
    SmartTub.request env self method path body =
      ⟨self, .error .notAuthenticatedError, []⟩ := by
  unfold SmartTub.request
  simp [h]

/-- C1: every operation that issues an authenticated API request —
`SmartTub.request`, `get_account`, and each `Spa`/sub-resource read or
mutator that delegates to them (on arguments passing its client-side
validation, so that the call reaches the delegation) — fails with
`NotAuthenticatedError` and issues no HTTP request when the session is
not logged in. -/
theorem C1_before_login_not_authenticated (env : Env) (isoparse : String → Int)
    (api : SmartTub) (acct : Account) (spa : Spa) (pump : SpaPump)
    (h : api.logged_in = false) :
    (∀ method path body, SmartTub.request env api method path body =
        ⟨api, .error .notAuthenticatedError, []⟩) ∧
    (SmartTub.get_account env api = ⟨api, .error .notAuthenticatedError, []⟩) ∧
    (∀ method resource body, Spa.request env api spa method resource body =
        ⟨(api, spa), .error .notAuthenticatedError, []⟩) ∧
    (Spa.get_status env api spa = ⟨(api, spa), .error .notAuthenticatedError, []⟩) ∧
    (Spa.get_pumps env api spa = ⟨(api, spa), .error .notAuthenticatedError, []⟩) ∧
    (Spa.get_lights env api spa = ⟨(api, spa), .error .notAuthenticatedError, []⟩) ∧
    (Spa.get_errors env api spa = ⟨(api, spa), .error .notAuthenticatedError, []⟩) ∧
    (Spa.get_reminders env isoparse api spa =
        ⟨(api, spa), .error .notAuthenticatedError, []⟩) ∧
    (Spa.get_debug_status env api spa =
        ⟨(api, spa), .error .notAuthenticatedError, []⟩) ∧
    (∀ interval sd ed, Spa.ENERGY_USAGE_INTERVALS.contains interval = true →
        Spa.get_energy_usage env api spa interval sd ed =
          ⟨(api, spa), .error .notAuthenticatedError, []⟩) ∧
    (∀ mode, Spa.SECONDARY_FILTRATION_MODES.contains mode = true →
        Spa.set_secondary_filtration_mode env api spa mode =
          ⟨(api, spa), .error .notAuthenticatedError, []⟩) ∧
    (∀ mode, Spa.HEAT_MODES.contains mode = true →
        Spa.set_heat_mode env api spa mode =
          ⟨(api, spa), .error .notAuthenticatedError, []⟩) ∧
    (∀ t, Spa.set_temperature env api spa t =
        ⟨(api, spa), .error .notAuthenticatedError, []⟩) ∧
    (∀ s, Spa.toggle_clearray env api spa s =
        ⟨(api, spa), .error .notAuthenticatedError, []⟩) ∧
    (∀ d t, (Option.isSome d || Option.isSome t) = true →
        Spa.set_date_time env api spa d t =
          ⟨(api, spa), .error .notAuthenticatedError, []⟩) ∧
    (Account.get_spas env api acct = ⟨(api, acct), .error .notAuthenticatedError, []⟩) ∧
    (∀ sid, Account.get_spa env api acct sid =
        ⟨(api, acct), .error .notAuthenticatedError, []⟩) ∧
    (SpaPump.toggle env api spa pump =
        ⟨(api, spa, pump), .error .notAuthenticatedError, []⟩) := by
  have hreq : ∀ method path body, SmartTub.request env api method path body =
      ⟨api, .error .notAuthenticatedError, []⟩ :=
    fun method path body => SmartTub.request_not_logged_in env api method path body h
  have hspa : ∀ method resource body, Spa.request env api spa method resource body =
      ⟨(api, spa), .error .notAuthenticatedError, []⟩ := by
    intro method resource body
    unfold Spa.request
    rw [hreq]
  refine ⟨hreq, ?_, hspa, ?_, ?_, ?_, ?_, ?_, ?_, ?_, ?_, ?_, ?_, ?_, ?_, ?_, ?_, ?_⟩
  · unfold SmartTub.get_account
    simp [h]
  · unfold Spa.get_status
    rw [hspa]
  · unfold Spa.get_pumps
    rw [hspa]
  · unfold Spa.get_lights
    rw [hspa]
  · unfold Spa.get_errors
    rw [hspa]
  · unfold Spa.get_reminders
    rw [hspa]
  · unfold Spa.get_debug_status
    rw [hspa]
  · intro interval sd ed hi
    unfold Spa.get_energy_usage
    rw [hi]
    simp only [if_true]
    rw [hspa]
  · intro mode hm
    unfold Spa.set_secondary_filtration_mode
    rw [hm]
    simp only [if_true]
    rw [hspa]
    rfl
  · intro mode hm
    unfold Spa.set_heat_mode
    rw [hm]
    simp only [if_true]
    rw [hspa]
    rfl
  · intro t
    unfold Spa.set_temperature
    rw [hspa]
    rfl
  · intro s
    unfold Spa.toggle_clearray
    rw [hspa]
    rfl
  · intro d t hdt
    unfold Spa.set_date_time
    rw [hdt]
    simp only [if_true]
    rw [hspa]
    rfl
  · unfold Account.get_spas
    rw [hreq]
  · intro sid
    unfold Account.get_spa
    rw [hreq]
  · unfold SpaPump.toggle
    rw [hspa]
    rfl

/-- Witness for C1 at concrete inputs: a fresh session, a generic read,
a validated mutator and a date-time call all fail with
`NotAuthenticatedError` and empty trace before login. -/
theorem C1_witness :
    SmartTub.request env200 api0 "GET" "spas/s1/status" none =
      ⟨api0, .error .notAuthenticatedError, []⟩ ∧
    Spa.set_heat_mode env200 api0 spa1 "AUTO" =
      ⟨(api0, spa1), .error .notAuthenticatedError, []⟩ ∧
    Spa.set_date_time env200 api0 spa1 (some ⟨2021, 1, 2⟩) none =
      ⟨(api0, spa1), .error .notAuthenticatedError, []⟩ := by
  obtain ⟨h1, _, _, _, _, _, _, _, _, _, _, h12, _, _, h15, _, _, _⟩ :=
    C1_before_login_not_authenticated env200 (fun _ => 0) api0 acct0 spa1 pump0 rfl
  exact ⟨h1 "GET" "spas/s1/status" none, h12 "AUTO" rfl, h15 (some ⟨2021, 1, 2⟩) none rfl⟩

/-- C2 (amended): for every login whose authentication response is 2xx,
carries `access_token`, numeric `expires_in` and `refresh_token` fields,
has `token_type` equal to `"Bearer"`, and whose decoded token claims
contain the account-id claim, the session's access token is set to the
response's `access_token`, the claims are the decoded token data, the
account id is the account-id claim, the expiry is the current time plus
`expires_in`, and the authenticated flag becomes true. -/
theorem C2_login_success (env : Env) (decode : Json → List (String × String))
    (now : Int) (self : SmartTub) (username password : String)
    (tok rt : Json) (e : Int) (aid : String)
    (h2a : 200 ≤ (env (SmartTub.authRequest username password)).status)
    (h2b : (env (SmartTub.authRequest username password)).status < 300)
    (htok : (env (SmartTub.authRequest username password)).body.get "access_token" =
      some tok)
    (hexp : (env (SmartTub.authRequest username password)).body.get "expires_in" =
      some (Json.num e))
    (hrt : (env (SmartTub.authRequest username password)).body.get "refresh_token" =
      some rt)
    (htt : (env (SmartTub.authRequest username password)).body.get "token_type" =
      some (Json.str "Bearer"))
    (haid : (decode tok).lookup SmartTub.AUTH_ACCOUNT_ID_KEY = some aid) :
    (SmartTub.login env decode now self username password).result = .ok () ∧
    (SmartTub.login env decode now self username password).state.access_token = tok ∧
    (SmartTub.login env decode now self username password).state.access_token_data =
      decode tok ∧
    (SmartTub.login env decode now self username password).state.account_id = aid ∧
    (SmartTub.login env decode now self username password).state.expires_at = now + e ∧
    (SmartTub.login env decode now self username password).state.logged_in = true := by
  have hst : statusError (env (SmartTub.authRequest username password)).status = false := by
    simp only [statusError, Bool.and_eq_false_iff, decide_eq_false_iff_not, not_le, not_lt]
    left
    omega
  simp only [SmartTub.login, hst, htok, hexp, hrt, htt, haid, Bool.false_eq_true,
    if_false]
  simp

/-- The C2 witness: a concrete well-formed authentication exchange. -/
def envLoginOk : Env := fun _ =>
  ⟨200, Json.obj [
    ("access_token", Json.str "tok"),
    ("token_type", Json.str "Bearer"),
    ("expires_in", Json.num 3600),
    ("refresh_token", Json.str "refresh")]⟩

/-- A concrete claim-decoding oracle mapping every token to an
account-id claim for `acct1`. -/
def decode0 : Json → List (String × String) :=
  fun _ => [(SmartTub.AUTH_ACCOUNT_ID_KEY, "acct1")]

/-- Witness for C2 at a concrete 2xx Bearer response. -/
theorem C2_witness :
    (SmartTub.login envLoginOk decode0 1000 SmartTub.init "u" "p").result = .ok () ∧
    (SmartTub.login envLoginOk decode0 1000 SmartTub.init "u" "p").state.access_token =
      Json.str "tok" ∧
    (SmartTub.login envLoginOk decode0 1000 SmartTub.init "u" "p").state.access_token_data =
      decode0 (Json.str "tok") ∧
    (SmartTub.login envLoginOk decode0 1000 SmartTub.init "u" "p").state.account_id =
      "acct1" ∧
    (SmartTub.login envLoginOk decode0 1000 SmartTub.init "u" "p").state.expires_at =
      1000 + 3600 ∧
    (SmartTub.login envLoginOk decode0 1000 SmartTub.init "u" "p").state.logged_in =
      true :=
  C2_login_success envLoginOk decode0 1000 SmartTub.init "u" "p"
    (Json.str "tok") (Json.str "refresh") 3600 "acct1"
    (by decide) (by decide) rfl rfl rfl rfl rfl

/-- A 2xx authentication response whose `token_type` is `"MAC"` rather
than `"Bearer"`. -/
def envBadTokenType : Env := fun _ =>
  ⟨200, Json.obj [
    ("access_token", Json.str "tok"),
    ("token_type", Json.str "MAC"),
    ("expires_in", Json.num 3600),
    ("refresh_token", Json.str "refresh")]⟩

/-- Counterexample to C2 as stated: this authentication response is 2xx
(status 200), yet `login` raises at `assert token_type == "Bearer"`
(an `AssertionError`, spec taxonomy `InvalidArgumentError`) and the
authenticated flag stays false. -/
theorem C2_counterexample :
    (200 ≤ (envBadTokenType (SmartTub.authRequest "u" "p")).status ∧
      (envBadTokenType (SmartTub.authRequest "u" "p")).status < 300) ∧
    (SmartTub.login envBadTokenType decode0 1000 SmartTub.init "u" "p").result =
      .error .invalidArgumentError ∧
    (SmartTub.login envBadTokenType decode0 1000 SmartTub.init "u" "p").state.logged_in =
      false :=
  ⟨⟨by decide, by decide⟩, rfl, rfl⟩

/-- C3 (code evidence): `SpaLight.set` never validates and never sends —
for every input, including `set(0, "OFF")` and `set(50, "BLUE")` which
the claim says succeed, it raises `AttributeError` at
`assert mode in self.LIGHT_MODES` (`SpaLight` has no `LIGHT_MODES`
attribute; the enumeration lives on `Spa`) and issues no HTTP request. -/
theorem C3_light_set_always_attribute_error (env : Env) (api : SmartTub) (spa : Spa)
    (light : SpaLight) (intensity : Int) (mode : String) :
    SpaLight.set env api spa light intensity mode =
      ⟨(api, spa, light), .error (.attributeError "LIGHT_MODES"), []⟩ := rfl

/-- C4: `set_heat_mode` fails with `InvalidArgumentError` and issues no
HTTP request when the mode is not one of {ECONOMY, DAY, AUTO}; for an
enumerated mode on a logged-in session it issues exactly one request, a
`PATCH` to the spa's `config` sub-path with a `heatMode` body. -/
theorem C4_set_heat_mode (env : Env) (api : SmartTub) (spa : Spa) (mode : String) :
    (Spa.HEAT_MODES.contains mode = false →
      Spa.set_heat_mode env api spa mode =
        ⟨(api, spa), .error .invalidArgumentError, []⟩) ∧
    (Spa.HEAT_MODES.contains mode = true → api.logged_in = true →
      (Spa.set_heat_mode env api spa mode).trace =
        [SmartTub.requestOf api "PATCH" (spa.resourcePath "config")
          (some (Json.obj [("heatMode", Json.str mode)]))]) := by
  constructor
  · intro h
    unfold Spa.set_heat_mode
    rw [h]
    simp
  · intro h hl
    simp only [Spa.set_heat_mode, h, if_true, Spa.request, SmartTub.request, hl]

/-- Witness for C4: `set_heat_mode("INVALID")` fails with no request;
`set_heat_mode("AUTO")` on a logged-in session sends the `PATCH`. -/
theorem C4_witness :
    Spa.set_heat_mode env200 api1 spa1 "INVALID" =
      ⟨(api1, spa1), .error .invalidArgumentError, []⟩ ∧
    (Spa.set_heat_mode env200 api1 spa1 "AUTO").trace =
      [SmartTub.requestOf api1 "PATCH" (spa1.resourcePath "config")
        (some (Json.obj [("heatMode", Json.str "AUTO")]))] :=
  ⟨(C4_set_heat_mode env200 api1 spa1 "INVALID").1 rfl,
   (C4_set_heat_mode env200 api1 spa1 "AUTO").2 rfl rfl⟩

/-- The `POST energyUsage` request `get_energy_usage` builds: ISO-8601
date bounds and the interval in the JSON body. -/
def Spa.energyUsageRequest (api : SmartTub) (self : Spa) (interval : String)
    (start_date end_date : Date) : HttpRequest :=
  SmartTub.requestOf api "POST" (self.resourcePath "energyUsage")
    (some (Json.obj [
      ("start", Json.str start_date.isoformat),
      ("end", Json.str end_date.isoformat),
      ("interval", Json.str interval)]))

/-- C5: `get_energy_usage` fails with `InvalidArgumentError` and issues
no HTTP request when the interval is not one of {DAY, MONTH}; for an
enumerated interval on a logged-in session with a non-error response it
issues exactly the `POST energyUsage` request with ISO-8601 bounds and
returns the `buckets` field of the response. -/
theorem C5_get_energy_usage (env : Env) (api : SmartTub) (spa : Spa)
    (interval : String) (sd ed : Date) :
    (Spa.ENERGY_USAGE_INTERVALS.contains interval = false →
      Spa.get_energy_usage env api spa interval sd ed =
        ⟨(api, spa), .error .invalidArgumentError, []⟩) ∧
    (∀ bs, Spa.ENERGY_USAGE_INTERVALS.contains interval = true →
      api.logged_in = true →
      statusError (env (Spa.energyUsageRequest api spa interval sd ed)).status = false →
      (env (Spa.energyUsageRequest api spa interval sd ed)).body.get "buckets" =
        some bs →
      Spa.get_energy_usage env api spa interval sd ed =
        ⟨(api, spa), .ok bs, [Spa.energyUsageRequest api spa interval sd ed]⟩) := by
  constructor
  · intro h
    unfold Spa.get_energy_usage
    rw [h]
    simp
  · intro bs h hl hst hb
    simp only [Spa.energyUsageRequest] at hst hb
    simp only [Spa.get_energy_usage, Spa.energyUsageRequest, h, if_true, Spa.request,
      SmartTub.request, hl, hst, Bool.false_eq_true, if_false, hb]

/-- A transport serving one energy-usage bucket list. -/
def envBuckets : Env := fun _ =>
  ⟨200, Json.obj [("buckets", Json.arr [Json.obj [("value", Json.num 7)]])]⟩

/-- Witness for C5: `get_energy_usage("YEAR", d1, d2)` fails with
`InvalidArgumentError`; `get_energy_usage("DAY", d1, d2)` issues the
POST and returns the bucket list. -/
theorem C5_witness :
    Spa.get_energy_usage envBuckets api1 spa1 "YEAR" ⟨2021, 1, 1⟩ ⟨2021, 2, 1⟩ =
      ⟨(api1, spa1), .error .invalidArgumentError, []⟩ ∧
    Spa.get_energy_usage envBuckets api1 spa1 "DAY" ⟨2021, 1, 1⟩ ⟨2021, 2, 1⟩ =
      ⟨(api1, spa1), .ok (Json.arr [Json.obj [("value", Json.num 7)]]),
        [Spa.energyUsageRequest api1 spa1 "DAY" ⟨2021, 1, 1⟩ ⟨2021, 2, 1⟩]⟩ :=
  ⟨(C5_get_energy_usage envBuckets api1 spa1 "YEAR" ⟨2021, 1, 1⟩ ⟨2021, 2, 1⟩).1 rfl,
   (C5_get_energy_usage envBuckets api1 spa1 "DAY" ⟨2021, 1, 1⟩ ⟨2021, 2, 1⟩).2
     (Json.arr [Json.obj [("value", Json.num 7)]]) rfl rfl rfl rfl⟩

/-- C6 (code evidence): with neither date nor time, `set_date_time`
fails with `InvalidArgumentError` before any network call, as the claim
says; but with a date provided, `self.request("POST", body)` passes the
`dateTimeConfig` dict as the `resource` argument, so the dict is
interpolated into the URL path and the request carries no JSON body at
all — not, as the claim says, a `dateTimeConfig` body sent to the
device's sub-path. -/
theorem C6_set_date_time_body_in_path :
    (∀ env api spa, Spa.set_date_time env api spa none none =
      ⟨(api, spa), .error .invalidArgumentError, []⟩) ∧
    Spa.set_date_time env200 api1 spa1 (some ⟨2021, 1, 2⟩) none =
      ⟨(api1, spa1), .ok (),
        [{ method := "POST"
           url := "https://api.smarttub.io/spas/s1/\x7b\x27dateTimeConfig\x27: \x7b\x27date\x27: \x272021-01-02\x27\x7d\x7d"
           bearer := some (Json.str "tok")
           body := none }]⟩ :=
  ⟨fun env api spa => rfl, rfl⟩

/-- C7 (code evidence): `set_temperature_format` never validates and
never sends — for every input, including the enumerated formats, it
raises `AttributeError` at
`assert temperature_format in self.TEMPERATURE_MODES` (the class
attribute is named `TEMPERATURE_FORMATS`; no `TEMPERATURE_MODES`
exists) and issues no HTTP request. -/
theorem C7_set_temperature_format_attribute_error (env : Env) (api : SmartTub)
    (spa : Spa) (temperature_format : String) :
    Spa.set_temperature_format env api spa temperature_format =
      ⟨(api, spa), .error (.attributeError "TEMPERATURE_MODES"), []⟩ := rfl

/-- The individual device fetch `GET spas/{device_id}` issued during the
second phase of `get_spas` (and by `get_spa`). -/
def devRequest (api : SmartTub) (s : String) : HttpRequest :=
  SmartTub.requestOf api "GET" ("spas/" ++ s) none

/-- The server answers the device fetch for id `s` without an HTTP
error, with a record whose `id` field is `s` and which carries `brand`
and `model` fields (what "fully-populated device record" requires of the
transport). -/
def devOk (env : Env) (api : SmartTub) (s : String) : Prop :=
  statusError (env (devRequest api s)).status = false ∧
  (env (devRequest api s)).body.get "id" = some (Json.str s) ∧
  (∃ b, (env (devRequest api s)).body.get "brand" = some b) ∧
  (∃ m, (env (devRequest api s)).body.get "model" = some m)

/-- On a logged-in session, `get_spa` against a well-behaved transport
returns a `Spa` built from the response, whose `id` field is the
requested id, having issued exactly the one device fetch. -/
theorem Account.get_spa_devOk (env : Env) (api : SmartTub) (acct : Account)
    (s : String) (hl : api.logged_in = true) (hd : devOk env api s) :
    ∃ sp : Spa, Account.get_spa env api acct (Json.str s) =
      ⟨(api, acct), .ok sp, [devRequest api s]⟩ ∧ sp.id = Json.str s := by
  obtain ⟨hst, hid, ⟨b, hb⟩, ⟨m, hm⟩⟩ := hd
  simp only [devRequest] at hst hid hb hm
  refine ⟨⟨Json.str s, b, m,
    (env (SmartTub.requestOf api "GET" ("spas/" ++ s) none)).body⟩, ?_, rfl⟩
  simp only [Account.get_spa, SmartTub.request, hl, if_true, Json.pyStr, hst,
    Bool.false_eq_true, if_false, Spa.ofJson, hid, hb, hm, devRequest]

/-- The `get_spas` loop on summaries whose ids the transport serves
well: it returns one `Spa` per summary, in order, issuing exactly one
device fetch per summary; each returned spa's `id` field is the id
listed in its summary and still satisfies `devOk`. -/
theorem Account.get_spas_loop_ok (env : Env) (api : SmartTub) (acct : Account)
    (hl : api.logged_in = true) (infos : List Json)
    (h : ∀ info ∈ infos, ∃ s : String,
      info.get "id" = some (Json.str s) ∧ devOk env api s) :
    ∃ spas : List Spa,
      Account.get_spas_loop env api acct infos =
        (.ok spas, spas.map fun sp => devRequest api sp.id.pyStr) ∧
      List.Forall₂ (fun info sp => info.get "id" = some sp.id) infos spas ∧
      ∀ sp ∈ spas, ∃ s : String, sp.id = Json.str s ∧ devOk env api s := by
  induction infos with
  | nil => exact ⟨[], rfl, List.Forall₂.nil, by simp⟩
  | cons info rest ih =>
    obtain ⟨s, hid, hd⟩ := h info (List.mem_cons_self _ _)
    obtain ⟨spas, hloop, hfa, hdev⟩ := ih (fun i hi => h i (List.mem_cons_of_mem _ hi))
    obtain ⟨sp, hsp, hspid⟩ := Account.get_spa_devOk env api acct s hl hd
    refine ⟨sp :: spas, ?_, ?_, ?_⟩
    · simp only [Account.get_spas_loop, hid, hsp, hloop, List.map_cons, hspid,
        Json.pyStr, List.singleton_append]
    · exact List.Forall₂.cons (by rw [hid, hspid]) hfa
    · intro sp2 hsp2
      rcases List.mem_cons.mp hsp2 with h2 | h2
      · exact ⟨s, by rw [h2]; exact hspid, hd⟩
      · exact hdev sp2 h2

/-- The listing request `GET spas?ownerId={account_id}` issued during
the first phase of `get_spas`. -/
def listRequest (api : SmartTub) (acct : Account) : HttpRequest :=
  SmartTub.requestOf api "GET" ("spas?ownerId=" ++ acct.id.pyStr) none

/-- C8: on a logged-in session, against a transport that answers the
listing request with a `content` array of summaries and serves each
listed device id, `get_spas` first issues the listing request
`GET spas?ownerId={id}`, then one `GET spas/{device_id}` per listed
summary in order, and returns one fully-populated `Spa` per summary
whose `id` field is the listed id; re-fetching any returned spa's id
through `get_spa` yields a record whose `id` field matches it. -/
theorem C8_get_spas_two_phase (env : Env) (api : SmartTub) (acct : Account)
    (infos : List Json)
    (hl : api.logged_in = true)
    (hstat : statusError (env (listRequest api acct)).status = false)
    (hcontent : (env (listRequest api acct)).body.get "content" =
      some (Json.arr infos))
    (hinfos : ∀ info ∈ infos, ∃ s : String,
      info.get "id" = some (Json.str s) ∧ devOk env api s) :
    ∃ spas : List Spa,
      Account.get_spas env api acct =
        ⟨(api, acct), .ok spas,
          listRequest api acct :: spas.map fun sp => devRequest api sp.id.pyStr⟩ ∧
      List.Forall₂ (fun info sp => info.get "id" = some sp.id) infos spas ∧
      ∀ sp ∈ spas, ∃ sp2 : Spa,
        (Account.get_spa env api acct sp.id).result = .ok sp2 ∧ sp2.id = sp.id := by
  obtain ⟨spas, hloop, hfa, hdev⟩ :=
    Account.get_spas_loop_ok env api acct hl infos hinfos
  simp only [listRequest] at hstat hcontent
  refine ⟨spas, ?_, hfa, ?_⟩
  · simp only [Account.get_spas, SmartTub.request, hl, if_true, hstat,
      Bool.false_eq_true, if_false, hcontent, hloop, listRequest,
      List.singleton_append]
  · intro sp hsp
    obtain ⟨s, heq, hd⟩ := hdev sp hsp
    obtain ⟨sp2, hsp2, hid2⟩ := Account.get_spa_devOk env api acct s hl hd
    refine ⟨sp2, ?_, ?_⟩
    · rw [heq, hsp2]
    · rw [heq]
      exact hid2

/-- A transport answering the listing request with an empty `content`
array. -/
def envSpaList : Env := fun _ => ⟨200, Json.obj [("content", Json.arr [])]⟩

/-- Witness for C8 at a concrete transport: the listing succeeds and
`get_spas` issues the listing request followed by one fetch per listed
id (here none). -/
theorem C8_witness :
    ∃ spas : List Spa,
      Account.get_spas envSpaList api1 acct0 =
        ⟨(api1, acct0), .ok spas,
          listRequest api1 acct0 :: spas.map fun sp => devRequest api1 sp.id.pyStr⟩ ∧
      List.Forall₂ (fun info sp => info.get "id" = some sp.id)
        ([] : List Json) spas ∧
      ∀ sp ∈ spas, ∃ sp2 : Spa,
        (Account.get_spa envSpaList api1 acct0 sp.id).result = .ok sp2 ∧
          sp2.id = sp.id :=
  C8_get_spas_two_phase envSpaList api1 acct0 [] rfl rfl rfl (by simp)

/-- C9 (amended): no mutator changes any client-side object state under
any outcome (session, spa, pump and light come back exactly as they went
in), and a 4xx/5xx response on an authenticated call makes
`SmartTub.request` raise `ApiError` carrying the response's status code
and body, again with no state change.  (A 1xx/3xx response, although not
2xx, does not raise: `raise_for_status` only raises for 400-599.) -/
theorem C9_no_state_mutation (env : Env) (api : SmartTub) (spa : Spa)
    (pump : SpaPump) (light : SpaLight) :
    (∀ mode, (Spa.set_secondary_filtration_mode env api spa mode).state =
      (api, spa)) ∧
    (∀ mode, (Spa.set_heat_mode env api spa mode).state = (api, spa)) ∧
    (∀ t, (Spa.set_temperature env api spa t).state = (api, spa)) ∧
    (∀ s, (Spa.toggle_clearray env api spa s).state = (api, spa)) ∧
    (∀ f, (Spa.set_temperature_format env api spa f).state = (api, spa)) ∧
    (∀ d t, (Spa.set_date_time env api spa d t).state = (api, spa)) ∧
    ((SpaPump.toggle env api spa pump).state = (api, spa, pump)) ∧
    (∀ i m, (SpaLight.set env api spa light i m).state = (api, spa, light)) ∧
    (∀ method path body, api.logged_in = true →
      statusError (env (api.requestOf method path body)).status = true →
      SmartTub.request env api method path body =
        ⟨api,
          .error (.apiError (env (api.requestOf method path body)).status
            (env (api.requestOf method path body)).body),
          [api.requestOf method path body]⟩) := by
  refine ⟨?_, ?_, ?_, ?_, ?_, ?_, ?_, ?_, ?_⟩
  · intro mode
    unfold Spa.set_secondary_filtration_mode
    split
    · simp [Spa.request_state_pair]
    · rfl
  · intro mode
    unfold Spa.set_heat_mode
    split
    · simp [Spa.request_state_pair]
    · rfl
  · intro t
    unfold Spa.set_temperature
    simp [Spa.request_state_pair]
  · intro s
    unfold Spa.toggle_clearray
    simp [Spa.request_state_pair]
  · intro f
    rfl
  · intro d t
    unfold Spa.set_date_time
    split
    · simp [Spa.request_state_pair]
    · rfl
  · unfold SpaPump.toggle
    simp [Spa.request_state_pair]
  · intro i m
    rfl
  · intro method path body hl hst
    simp only [SmartTub.request, hl, if_true, hst]

/-- Witness for C9: a simulated 500 on an authenticated read raises
`ApiError` carrying status 500, with session state unchanged. -/
theorem C9_witness :
    SmartTub.request env500 api1 "GET" "spas/s1/status" none =
      ⟨api1, .error (.apiError 500 Json.null),
        [api1.requestOf "GET" "spas/s1/status" none]⟩ :=
  (C9_no_state_mutation env500 api1 spa1 pump0 light0).2.2.2.2.2.2.2.2
    "GET" "spas/s1/status" none rfl rfl

/-- Counterexample to C9 as stated: a 300 response is not 2xx, yet the
authenticated call returns the decoded body with no `ApiError`, because
`raise_for_status` raises only for statuses 400-599. -/
theorem C9_counterexample :
    api1.logged_in = true ∧
    (env300 (api1.requestOf "GET" "spas/s1/status" none)).status = 300 ∧
    SmartTub.request env300 api1 "GET" "spas/s1/status" none =
      ⟨api1, .ok Json.null, [api1.requestOf "GET" "spas/s1/status" none]⟩ :=
  ⟨rfl, rfl, rfl⟩

/-- C10: `SpaLight.toggle` raises `AttributeError` (a `SpaLight` has no
`id` attribute) before any HTTP request is issued, and the path template
the source line would interpolate, `f"pumps/{self.id}/toggle"`, targets
the pumps endpoint: it is `"pumps/" ++ _` and never a `"lights/" ++ _`
path. -/
theorem C10_light_toggle_attribute_error (env : Env) (api : SmartTub) (spa : Spa)
    (light : SpaLight) :
    SpaLight.toggle env api spa light =
      ⟨(api, spa, light), .error (.attributeError "id"), []⟩ ∧
    (∀ i, SpaLight.toggle_path i = "pumps/" ++ (i ++ "/toggle")) ∧
    (∀ i r, SpaLight.toggle_path i ≠ "lights/" ++ r) := by
  refine ⟨rfl, fun i => String.append_assoc _ _ _, fun i r hcontra => ?_⟩
  have hd := congrArg String.data hcontra
  simp only [SpaLight.toggle_path, String.data_append] at hd
  simp at hd
